import Mathlib

/-!
Verification of the risk-management, signal-fusion, scanning and safety
subsystems of the BOTBEAST2 trading bot, shallowly embedded from

  * src/gbsb/risk_management/risk_levels.py
  * src/gbsb/ai/autopilot_engine.py
  * src/gbsb/ai/auto_opportunity_detector.py
  * src/gbsb/scanners/pair_scanner.py

Python floats are modelled as exact rationals (ℚ); Python decimal literals
such as 0.25 denote the same rational value.  Python dictionaries are
modelled by the fields the embedded code actually reads.  Code that can
raise (division by zero) is embedded in `Except String`; pure arithmetic
paths are embedded as total functions.
-/

namespace GBSB

/-! ## risk_levels.py : data model -/

/-- `RiskLevel` enum. -/
inductive RiskLevel
  | conservative
  | aggressive
  | turbo
  deriving DecidableEq, Repr

/-- `LeverageMode` enum. -/
inductive LeverageMode
  | dynamic
  | fixed
  | adaptive
  deriving DecidableEq, Repr

/-- `RiskProfile` dataclass. -/
structure RiskProfile where
  risk_level : RiskLevel
  max_leverage : ℚ
  base_position_size : ℚ
  max_position_size : ℚ
  stop_loss_percentage : ℚ
  take_profit_percentage : ℚ
  max_drawdown : ℚ
  max_daily_trades : ℕ
  risk_per_trade : ℚ
  volatility_threshold : ℚ
  confidence_threshold : ℚ
  emergency_stop_loss : ℚ
  position_sizing_method : String
  diversification_limit : ℕ
  deriving DecidableEq, Repr

/-- `PositionSizing` dataclass. -/
structure PositionSizing where
  base_size : ℚ
  leverage : ℚ
  adjusted_size : ℚ
  risk_amount : ℚ
  stop_distance : ℚ
  position_value : ℚ
  margin_required : ℚ
  max_loss : ℚ
  deriving DecidableEq, Repr

/-- `RiskMetrics` dataclass. -/
structure RiskMetrics where
  current_exposure : ℚ
  total_leverage : ℚ
  portfolio_var : ℚ
  max_drawdown : ℚ
  sharpe_ratio : ℚ
  win_rate : ℚ
  profit_factor : ℚ
  risk_score : ℚ
  margin_utilization : ℚ
  diversification_score : ℚ
  deriving DecidableEq, Repr

/-- The fields of the `PairInfo` dataclass read by the functions embedded
here (`volume_24h` by the adaptive leverage mode; the identification
fields are carried along). -/
structure PairInfo where
  symbol : String
  exchange : String
  price : ℚ
  volume_24h : ℚ
  deriving DecidableEq, Repr

/-- The `QuickOpportunity` dataclass (the `time_to_expire` timedelta is
not read by any embedded function and is omitted). -/
structure QuickOpportunity where
  pair : PairInfo
  timeframe : String
  strategy : String
  signal : String
  confidence : ℚ
  entry_price : ℚ
  stop_loss : Option ℚ := none
  take_profit : Option ℚ := none
  risk_reward_ratio : ℚ := 1
  reasoning : String := ""
  technical_score : ℚ := 0
  volume_score : ℚ := 0
  volatility_score : ℚ := 0
  overall_score : ℚ := 0
  deriving DecidableEq, Repr

/-- The `market_conditions` dict: the embedded code reads only the
`trend_strength` key (with `.get(..., 0.5)`), so the dict is modelled by
that optional entry. -/
structure MarketConditions where
  trend_strength : Option ℚ := none
  deriving DecidableEq, Repr

/-- `RiskManager._create_risk_profiles()[CONSERVATIVE]`. -/
def conservativeProfile : RiskProfile where
  risk_level := RiskLevel.conservative
  max_leverage := 2.0
  base_position_size := 1000.0
  max_position_size := 5000.0
  stop_loss_percentage := 0.02
  take_profit_percentage := 0.04
  max_drawdown := 0.05
  max_daily_trades := 5
  risk_per_trade := 0.01
  volatility_threshold := 0.03
  confidence_threshold := 0.8
  emergency_stop_loss := 0.03
  position_sizing_method := "kelly_criterion"
  diversification_limit := 3

/-- `RiskManager._create_risk_profiles()[AGGRESSIVE]`. -/
def aggressiveProfile : RiskProfile where
  risk_level := RiskLevel.aggressive
  max_leverage := 5.0
  base_position_size := 2000.0
  max_position_size := 10000.0
  stop_loss_percentage := 0.03
  take_profit_percentage := 0.06
  max_drawdown := 0.10
  max_daily_trades := 15
  risk_per_trade := 0.025
  volatility_threshold := 0.05
  confidence_threshold := 0.7
  emergency_stop_loss := 0.05
  position_sizing_method := "volatility_adjusted"
  diversification_limit := 5

/-- `RiskManager._create_risk_profiles()[TURBO]`. -/
def turboProfile : RiskProfile where
  risk_level := RiskLevel.turbo
  max_leverage := 10.0
  base_position_size := 5000.0
  max_position_size := 20000.0
  stop_loss_percentage := 0.05
  take_profit_percentage := 0.10
  max_drawdown := 0.20
  max_daily_trades := 30
  risk_per_trade := 0.05
  volatility_threshold := 0.08
  confidence_threshold := 0.6
  emergency_stop_loss := 0.08
  position_sizing_method := "momentum_based"
  diversification_limit := 8

/-- `RiskManager.risk_profiles`. -/
def riskProfiles : RiskLevel → RiskProfile
  | RiskLevel.conservative => conservativeProfile
  | RiskLevel.aggressive => aggressiveProfile
  | RiskLevel.turbo => turboProfile

/-- `RiskManager.leverage_modes`. -/
def leverageModes : RiskLevel → LeverageMode
  | RiskLevel.conservative => LeverageMode.fixed
  | RiskLevel.aggressive => LeverageMode.dynamic
  | RiskLevel.turbo => LeverageMode.adaptive

/-! ## risk_levels.py : leverage and sizing -/

/-- `RiskManager._calculate_dynamic_leverage`.  The trailing
`return base_leverage` of the Python is unreachable because the three
enum values are covered. -/
def calculateDynamicLeverage (opportunity : QuickOpportunity) (volatility : ℚ)
    (market_conditions : MarketConditions) (profile : RiskProfile) : ℚ :=
  let base_leverage := profile.max_leverage
  match leverageModes profile.risk_level with
  | LeverageMode.fixed => min base_leverage 2.0
  | LeverageMode.dynamic =>
      let confidence_factor := opportunity.confidence
      let volatility_factor := max 0.5 (1 - volatility / 0.1)
      let market_factor := market_conditions.trend_strength.getD 0.5
      let dynamic_leverage := base_leverage * confidence_factor * volatility_factor * market_factor
      min dynamic_leverage base_leverage
  | LeverageMode.adaptive =>
      let trend_factor := market_conditions.trend_strength.getD 0.5
      let volume_factor := min 1.0 (opportunity.pair.volume_24h / 10000000)
      let adaptive_leverage := base_leverage * (0.5 + trend_factor * 0.3 + volume_factor * 0.2)
      min adaptive_leverage base_leverage

/-- `RiskManager._calculate_base_position_size`, with Python's
`ZeroDivisionError` made explicit: the Kelly branch divides by
`opportunity.risk_reward_ratio` and the volatility branch divides by
`1 + opportunity.volatility_score`, both unguarded in the source. -/
def calculateBasePositionSizeE (opportunity : QuickOpportunity)
    (current_balance : ℚ) (profile : RiskProfile) : Except String ℚ :=
  let sizing_method := profile.position_sizing_method
  if sizing_method = "kelly_criterion" then
    let win_rate := opportunity.confidence
    let avg_win := opportunity.risk_reward_ratio
    if avg_win = 0 then Except.error "ZeroDivisionError: kelly_fraction"
    else
      let kelly_fraction := (win_rate * avg_win - (1 - win_rate)) / avg_win
      let kelly_fraction := max 0 (min kelly_fraction 0.25)
      Except.ok (current_balance * kelly_fraction)
  else if sizing_method = "volatility_adjusted" then
    if 1 + opportunity.volatility_score = 0 then
      Except.error "ZeroDivisionError: volatility_adjustment"
    else
      let volatility_adjustment := 1 / (1 + opportunity.volatility_score)
      Except.ok (profile.base_position_size * volatility_adjustment)
  else if sizing_method = "momentum_based" then
    let momentum_score := (opportunity.technical_score +
      opportunity.volume_score + opportunity.volatility_score) / 3
    Except.ok (profile.base_position_size * (0.5 + momentum_score * 0.5))
  else
    Except.ok profile.base_position_size

/-- `RiskManager.calculate_position_size`, with Python's
`ZeroDivisionError` made explicit: `margin_required` divides by the
computed leverage.  The base-size error fires first, as the Python
computes `base_size` before `margin_required`. -/
def calculatePositionSizeE (opportunity : QuickOpportunity)
    (current_balance : ℚ) (volatility : ℚ)
    (market_conditions : MarketConditions) (profile : RiskProfile) :
    Except String PositionSizing :=
  let leverage := calculateDynamicLeverage opportunity volatility market_conditions profile
  match calculateBasePositionSizeE opportunity current_balance profile with
  | Except.error e => Except.error e
  | Except.ok base_size =>
      let adjusted_size := base_size * leverage
      let adjusted_size := min adjusted_size profile.max_position_size
      let adjusted_size := min adjusted_size (current_balance * profile.max_leverage)
      let stop_distance := |opportunity.entry_price - opportunity.stop_loss.getD 0|
      let risk_amount := adjusted_size * profile.risk_per_trade
      let position_value := adjusted_size * opportunity.entry_price
      if leverage = 0 then Except.error "ZeroDivisionError: margin_required"
      else
        Except.ok {
          base_size := base_size
          leverage := leverage
          adjusted_size := adjusted_size
          risk_amount := risk_amount
          stop_distance := stop_distance
          position_value := position_value
          margin_required := position_value / leverage
          max_loss := risk_amount }

/-- `calculate_optimal_leverage` (module-level utility). -/
def calculateOptimalLeverage (volatility confidence : ℚ) (risk_level : RiskLevel) : ℚ :=
  let base_leverage :=
    match risk_level with
    | RiskLevel.conservative => (2.0 : ℚ)
    | RiskLevel.aggressive => 5.0
    | RiskLevel.turbo => 10.0
  let volatility_factor := max 0.5 (1 - volatility / 0.1)
  let confidence_factor := confidence
  min (base_leverage * volatility_factor * confidence_factor) base_leverage

/-! ## risk_levels.py : safety monitor -/

/-- `RiskManager.should_emergency_stop`, a pure function of the current
profile and `current_metrics`.  The Python interpolates the offending
metric's value into the reason string; the string here carries the same
reason without the number. -/
def shouldEmergencyStop (profile : RiskProfile) (current_metrics : RiskMetrics) :
    Bool × String :=
  if current_metrics.max_drawdown > profile.emergency_stop_loss then
    (true, "Drawdown de emergencia")
  else if current_metrics.risk_score > 0.9 then
    (true, "Score de riesgo critico")
  else if current_metrics.margin_utilization > 0.95 then
    (true, "Utilizacion de margen critica")
  else
    (false, "Condiciones normales")

/-- `RiskManager.get_risk_recommendations`, a pure function of the
current profile and `current_metrics` returning the surfaced warning
messages in the order the Python appends them. -/
def getRiskRecommendations (profile : RiskProfile) (current_metrics : RiskMetrics) :
    List String :=
  (if current_metrics.risk_score > 0.7 then
    ["Considerar reducir exposicion o cambiar a nivel mas conservador"] else []) ++
  (if current_metrics.max_drawdown > profile.max_drawdown * 0.8 then
    ["Drawdown elevado, revisar estrategias de stop loss"] else []) ++
  (if current_metrics.win_rate < 0.4 then
    ["Win rate bajo, revisar criterios de entrada"] else []) ++
  (if current_metrics.diversification_score < 0.3 then
    ["Poca diversificacion, considerar mas pares"] else []) ++
  (if current_metrics.margin_utilization > 0.8 then
    ["Alta utilizacion de margen, reducir posiciones"] else [])

/-! ## auto_opportunity_detector.py : the detection loop as a state machine

`AutoOpportunityDetector._detection_loop` is an async `while self.is_running`
loop: each iteration first calls `risk_manager.should_emergency_stop()`; on
`True` it awaits `_emergency_stop_all_positions()` (which clears
`active_positions` and sets `is_running = False`) and `break`s out of the
loop — the coroutine ends and no further cycle is ever scheduled.  Only the
explicit operator call `start_detection()` creates a new loop task (and it
does so only when `is_running` is false).  The state machine below embeds
that control flow; one `detectorLoopIteration` is one pass of the `while`
body driven by the metrics current at that pass. -/

/-- Session state of `AutoOpportunityDetector` as seen by the loop:
`isRunning` is the `self.is_running` flag, `loopActive` whether the
`_detection_loop` task is still iterating, `halted` whether the emergency
`break` has fired this session, `positionsClosed` whether
`_emergency_stop_all_positions` cleared `active_positions`, and
`cyclesRun` counts completed scan cycles. -/
structure DetectorState where
  isRunning : Bool
  loopActive : Bool
  halted : Bool
  positionsClosed : Bool
  cyclesRun : ℕ
  deriving DecidableEq, Repr

/-- One pass of the `while self.is_running` body of `_detection_loop`,
driven by the risk metrics read at that pass.  A broken loop
(`loopActive = false`) does nothing; a cleared `is_running` flag ends the
loop; an emergency stop closes all positions, clears `is_running` and
breaks; otherwise one detection cycle runs. -/
def detectorLoopIteration (profile : RiskProfile) (metrics : RiskMetrics)
    (s : DetectorState) : DetectorState :=
  if s.loopActive = false then s
  else if s.isRunning = false then { s with loopActive := false }
  else if (shouldEmergencyStop profile metrics).1 then
    { s with isRunning := false, loopActive := false, halted := true,
             positionsClosed := true }
  else
    { s with cyclesRun := s.cyclesRun + 1 }

/-- The detection loop run over a sequence of per-cycle risk metrics. -/
def runDetectionLoop (profile : RiskProfile) (updates : List RiskMetrics)
    (s : DetectorState) : DetectorState :=
  updates.foldl (fun st m => detectorLoopIteration profile m st) s

/-- `AutoOpportunityDetector.start_detection`: a no-op while
`is_running` is set, otherwise it sets the flag and spawns a fresh
`_detection_loop` task — the explicit operator restart. -/
def startDetection (s : DetectorState) : DetectorState :=
  if s.isRunning then s
  else { s with isRunning := true, loopActive := true, halted := false }

/-- `AutoOpportunityDetector.stop_detection`: clears `is_running`; the
loop observes the flag at its next pass. -/
def stopDetection (s : DetectorState) : DetectorState :=
  { s with isRunning := false }

/-! ## autopilot_engine.py : signal fusion

`AutopilotEngine._consolidate_signals` receives `analysis_results`
(strategy name → symbol → per-strategy result dict) and `market_data`
(symbol → OHLCV frame); it works on the first symbol of `market_data` and
that symbol's last close price.  The embedding takes that symbol and price
directly, models each per-strategy result dict by the keys the method
reads (`error` presence, `confidence`, `action`, and the `levels` list
used for stop/take-profit), and makes the wall clock (`datetime.now()`)
an explicit parameter `now`. -/

/-- The `action` strings exchanged between strategies and the fuser. -/
inductive Action
  | buy
  | sell
  | hold
  deriving DecidableEq, Repr

/-- The members of the `StrategyWeight` enum / the keys of
`analysis_results`. -/
inductive StrategyName
  | support_resistance
  | channel_analysis
  | ict_techniques
  | fibonacci
  | session_analysis
  | spread_analysis
  deriving DecidableEq, Repr

/-- `StrategyWeight` enum values, looked up by
`getattr(StrategyWeight, strategy.upper())`. -/
def strategyWeight : StrategyName → ℚ
  | StrategyName.support_resistance => 0.20
  | StrategyName.channel_analysis => 0.15
  | StrategyName.ict_techniques => 0.25
  | StrategyName.fibonacci => 0.15
  | StrategyName.session_analysis => 0.15
  | StrategyName.spread_analysis => 0.10

/-- A support/resistance level as read by
`_calculate_stop_take_profit` (`level.type`, `level.price`). -/
inductive LevelType
  | support
  | resistance
  deriving DecidableEq, Repr

structure SRLevel where
  type : LevelType
  price : ℚ
  deriving DecidableEq, Repr

/-- One strategy's per-symbol result dict, modelled by the keys
`_consolidate_signals` and `_calculate_stop_take_profit` read:
`hasError` stands for the presence of the `error` key, `confidence` and
`action` for `.get('confidence', 0.0)` / `.get('action', 'hold')`, and
`levels` for `.get('levels', [])`. -/
structure SignalData where
  hasError : Bool := false
  confidence : ℚ := 0
  action : Action := Action.hold
  levels : List SRLevel := []
  deriving DecidableEq, Repr

/-- `analysis_results` restricted to the fused symbol, in dict iteration
(= insertion) order; `none` models a strategy whose result dict does not
contain the symbol. -/
def AnalysisResults := List (StrategyName × Option SignalData)

/-- The `signals` list of `_consolidate_signals`: one
`(action, weighted confidence)` entry per strategy whose result holds the
symbol and has no `error` key (the dict's unused `weight` entry is
dropped). -/
def collectSignals (analysis_results : AnalysisResults) : List (Action × ℚ) :=
  analysis_results.filterMap fun e =>
    match e.2 with
    | none => none
    | some d =>
        if d.hasError then none
        else some (d.action, d.confidence * strategyWeight e.1)

/-- The `strategy_contributions` dict built alongside `signals`. -/
def strategyContributions (analysis_results : AnalysisResults) :
    List (StrategyName × ℚ) :=
  analysis_results.filterMap fun e =>
    match e.2 with
    | none => none
    | some d =>
        if d.hasError then none
        else some (e.1, d.confidence * strategyWeight e.1)

/-- The accumulated bucket weight of one action:
`sum(s['confidence'] for s in signals if s['action'] == a)`. -/
def actionWeight (a : Action) (signals : List (Action × ℚ)) : ℚ :=
  ((signals.filter fun s => s.1 = a).map fun s => s.2).sum

/-- The decision chain of `_consolidate_signals`: strictly greatest
bucket wins with its weight as confidence, everything else (all ties
included) falls to `hold` with the hold bucket's weight. -/
def consolidateCore (signals : List (Action × ℚ)) : Action × ℚ :=
  let buy_weight := actionWeight Action.buy signals
  let sell_weight := actionWeight Action.sell signals
  let hold_weight := actionWeight Action.hold signals
  if buy_weight > sell_weight ∧ buy_weight > hold_weight then
    (Action.buy, buy_weight)
  else if sell_weight > buy_weight ∧ sell_weight > hold_weight then
    (Action.sell, sell_weight)
  else
    (Action.hold, hold_weight)

/-- Python's `min(levels, key=lambda x: abs(x.price - current_price))`:
the first element of least key.  Returns `none` on an empty list (the
Python guards every call with a nonemptiness test). -/
def closestLevel (current_price : ℚ) (levels : List SRLevel) : Option SRLevel :=
  levels.foldl
    (fun best l =>
      match best with
      | none => some l
      | some b => if |l.price - current_price| < |b.price - current_price| then some l else some b)
    none

/-- `AutopilotEngine._calculate_stop_take_profit`.  The
support/resistance levels come from
`analysis_results['support_resistance'][symbol].get('levels', [])` when
that entry exists.  Python's falsy test `if not stop_loss:` fires on both
`None` and `0.0`, and its default branch assigns both stop and take
profit, overwriting any previously found take profit. -/
def calculateStopTakeProfit (action : Action) (current_price : ℚ)
    (analysis_results : AnalysisResults) : Option ℚ × Option ℚ :=
  let levels :=
    match analysis_results.find? fun e => e.1 = StrategyName.support_resistance with
    | some (_, some d) => d.levels
    | _ => []
  let found : Option ℚ × Option ℚ :=
    if levels ≠ [] then
      match action with
      | Action.buy =>
          let support_levels := levels.filter fun l => l.type = LevelType.support
          let resistance_levels := levels.filter fun l => l.type = LevelType.resistance
          ((closestLevel current_price support_levels).map fun l => l.price * 0.995,
           (closestLevel current_price resistance_levels).map fun l => l.price * 0.995)
      | Action.sell =>
          let support_levels := levels.filter fun l => l.type = LevelType.support
          let resistance_levels := levels.filter fun l => l.type = LevelType.resistance
          ((closestLevel current_price resistance_levels).map fun l => l.price * 1.005,
           (closestLevel current_price support_levels).map fun l => l.price * 1.005)
      | Action.hold => (none, none)
    else (none, none)
  if found.1.getD 0 = 0 then
    match action with
    | Action.buy => (some (current_price * 0.98), some (current_price * 1.04))
    | Action.sell => (some (current_price * 1.02), some (current_price * 0.96))
    | Action.hold => found
  else found

/-- The fields of `AutopilotConfig` read by `_calculate_position_size`. -/
structure AutopilotConfigM where
  max_position_size : ℚ := 1000.0
  risk_per_trade : ℚ := 0.02
  deriving DecidableEq, Repr

/-- `AutopilotEngine._calculate_position_size`. -/
def calculateAutopilotPositionSize (confidence : ℚ) (config : AutopilotConfigM) : ℚ :=
  let base_size := confidence * config.max_position_size
  let risk_adjusted_size := base_size * config.risk_per_trade
  min risk_adjusted_size config.max_position_size

/-- `AutopilotEngine._calculate_risk_score`: the mean of `1 - confidence`
over the error-free per-strategy results, `0.5` when there are none. -/
def calculateRiskScore (analysis_results : AnalysisResults) : ℚ :=
  let risk_factors := analysis_results.filterMap fun e =>
    match e.2 with
    | none => none
    | some d => if d.hasError then none else some (1 - d.confidence)
  if risk_factors = [] then 0.5
  else risk_factors.sum / risk_factors.length

/-- The data `_generate_reasoning` interpolates into its result string:
the fused action and confidence, and the `(strategy, action, confidence)`
parts for the error-free results with raw confidence above `0.5`.
`noValidSignals` is the fixed string of the no-signals branch of
`_consolidate_signals`. -/
inductive Reasoning
  | signal (action : Action) (confidence : ℚ)
      (parts : List (StrategyName × Action × ℚ))
  | noValidSignals
  deriving DecidableEq, Repr

/-- The parts list of `_generate_reasoning`. -/
def reasoningParts (analysis_results : AnalysisResults) :
    List (StrategyName × Action × ℚ) :=
  analysis_results.filterMap fun e =>
    match e.2 with
    | none => none
    | some d =>
        if d.hasError then none
        else if d.confidence > 0.5 then some (e.1, d.action, d.confidence)
        else none

/-- The `TradingSignal` dataclass.  `timestamp` is the `datetime.now()`
instant, modelled as a natural number; `ai_analysis` is never set by
`_consolidate_signals` and keeps its `None` default. -/
structure TradingSignal where
  timestamp : ℕ
  symbol : String
  action : Action
  confidence : ℚ
  price : ℚ
  stop_loss : Option ℚ := none
  take_profit : Option ℚ := none
  position_size : ℚ := 1.0
  reasoning : Reasoning
  strategy_contributions : List (StrategyName × ℚ) := []
  risk_score : ℚ := 0.5
  ai_analysis : Option Unit := none
  deriving DecidableEq, Repr

/-- `AutopilotEngine._consolidate_signals` for one symbol whose last
close is `current_price`, at wall-clock instant `now`. -/
def consolidateSignals (analysis_results : AnalysisResults)
    (symbol : String) (current_price : ℚ) (config : AutopilotConfigM)
    (now : ℕ) : TradingSignal :=
  let signals := collectSignals analysis_results
  if signals ≠ [] then
    let consolidated := consolidateCore signals
    let stop_take :=
      calculateStopTakeProfit consolidated.1 current_price analysis_results
    { timestamp := now
      symbol := symbol
      action := consolidated.1
      confidence := consolidated.2
      price := current_price
      stop_loss := stop_take.1
      take_profit := stop_take.2
      position_size := calculateAutopilotPositionSize consolidated.2 config
      reasoning := Reasoning.signal consolidated.1 consolidated.2
        (reasoningParts analysis_results)
      strategy_contributions := strategyContributions analysis_results
      risk_score := calculateRiskScore analysis_results }
  else
    { timestamp := now
      symbol := symbol
      action := Action.hold
      confidence := 0.0
      price := current_price
      reasoning := Reasoning.noValidSignals }

/-! ## pair_scanner.py : fault-isolated scanning

`PairScanner.scan_all_opportunities` builds one scan task per
(pair, timeframe, market type) combination and awaits them in batches
with `asyncio.gather(*batch, return_exceptions=True)`: a raising task
yields an `Exception` value in `batch_results`, which the collection loop
logs and skips, while every non-raising task's opportunity list is
extended into `all_opportunities`.  The embedding takes the per-task
outcomes (`Except.error` = the task raised) and models the collection,
filter and stable descending sort that produce the returned list. -/

/-- The fields of `ScanConfig` read by `_filter_opportunities`. -/
structure ScanConfigM where
  min_confidence_threshold : ℚ := 0.6
  deriving DecidableEq, Repr

/-- The body of the collection loop over `batch_results`: an exception
value is logged and dropped, a list result extends `all_opportunities`.
(Python's `elif result:` skips empty lists, which extends nothing either
way.) -/
def gatherStep (all_opportunities : List QuickOpportunity)
    (r : Except String (List QuickOpportunity)) : List QuickOpportunity :=
  match r with
  | Except.error _ => all_opportunities
  | Except.ok result => all_opportunities ++ result

/-- The collection loop over `batch_results` accumulating
`all_opportunities`. -/
def gatherBatchResults
    (batch_results : List (Except String (List QuickOpportunity))) :
    List QuickOpportunity :=
  batch_results.foldl gatherStep []

/-- `PairScanner._filter_opportunities`. -/
def filterOpportunities (config : ScanConfigM)
    (opportunities : List QuickOpportunity) : List QuickOpportunity :=
  opportunities.filter fun opp =>
    !decide (opp.confidence < config.min_confidence_threshold) &&
    !decide (opp.overall_score < 0.5) &&
    !decide (opp.risk_reward_ratio < 1.0)

/-- Stable insertion for descending sort by `overall_score`: an element
is placed before the first strictly smaller key, after equal keys, which
is the order Python's stable `sorted(..., reverse=True)` produces. -/
def insertByScoreDesc (opp : QuickOpportunity) :
    List QuickOpportunity → List QuickOpportunity
  | [] => [opp]
  | x :: xs =>
      if opp.overall_score < x.overall_score then x :: insertByScoreDesc opp xs
      else opp :: x :: xs

/-- `sorted(filtered_opportunities, key=lambda x: x.overall_score,
reverse=True)` as a stable insertion sort. -/
def sortByScoreDesc : List QuickOpportunity → List QuickOpportunity
  | [] => []
  | x :: xs => insertByScoreDesc x (sortByScoreDesc xs)

/-- `PairScanner.scan_all_opportunities` from the per-task outcomes:
collect the non-raising results, filter, sort. -/
def scanAllFromResults (config : ScanConfigM)
    (batch_results : List (Except String (List QuickOpportunity))) :
    List QuickOpportunity :=
  sortByScoreDesc (filterOpportunities config (gatherBatchResults batch_results))

/-! ## Concrete fixtures for scenarios, witnesses and counterexamples -/

/-- An empty `market_conditions` dict (every `.get` falls to its default). -/
def emptyMarket : MarketConditions := {}

/-- The `AutopilotConfig` defaults read by the fuser. -/
def autopilotDefaults : AutopilotConfigM := {}

/-- A BTCUSDT pair snapshot. -/
def btcPair : PairInfo where
  symbol := "BTCUSDT"
  exchange := "binance"
  price := 50000
  volume_24h := 5000000

/-- The spec's Kelly scenario: confidence 0.9, risk/reward 2. -/
def kellyOpportunity : QuickOpportunity where
  pair := btcPair
  timeframe := "1h"
  strategy := "support_resistance"
  signal := "buy"
  confidence := 0.9
  entry_price := 100
  stop_loss := some 95
  risk_reward_ratio := 2

/-- The sizing record `calculate_position_size` produces for
`kellyOpportunity` under the Conservative profile at balance 10000 and
volatility 0.02: Kelly fraction clamped to 0.25 gives base 2500, fixed
leverage 2, `adjusted_size` capped at `max_position_size = 5000`. -/
def kellySizing : PositionSizing where
  base_size := 2500
  leverage := 2
  adjusted_size := 5000
  risk_amount := 50
  stop_distance := 5
  position_value := 500000
  margin_required := 250000
  max_loss := 50

/-- An opportunity with `volatility_score = -1` but nonzero risk/reward:
under the Aggressive (volatility-adjusted) profile the computed leverage
is 2.5 ≠ 0 and the risk/reward divisor is 1 ≠ 0, yet
`1/(1 + volatility_score)` divides by zero. -/
def negVolOpportunity : QuickOpportunity where
  pair := btcPair
  timeframe := "1h"
  strategy := "support_resistance"
  signal := "buy"
  confidence := 1
  entry_price := 100
  risk_reward_ratio := 1
  volatility_score := -1

/-- An opportunity with confidence 0: under the Aggressive profile the
dynamic leverage is `5 × 0 × … = 0` and `margin_required` divides by
zero. -/
def zeroConfOpportunity : QuickOpportunity where
  pair := btcPair
  timeframe := "1h"
  strategy := "support_resistance"
  signal := "buy"
  confidence := 0
  entry_price := 100
  risk_reward_ratio := 1

/-- An opportunity with `risk_reward_ratio = 0`: under the Conservative
(Kelly) profile the Kelly fraction divides by zero. -/
def zeroRRopportunity : QuickOpportunity where
  pair := btcPair
  timeframe := "1h"
  strategy := "support_resistance"
  signal := "buy"
  confidence := 0.9
  entry_price := 100
  risk_reward_ratio := 0

/-- A metrics snapshot that is all zero. -/
def zeroMetrics : RiskMetrics where
  current_exposure := 0
  total_leverage := 0
  portfolio_var := 0
  max_drawdown := 0
  sharpe_ratio := 0
  win_rate := 0
  profit_factor := 0
  risk_score := 0
  margin_utilization := 0
  diversification_score := 0

/-- The spec's Halted scenario metrics: drawdown 0.06, all else zero. -/
def drawdownMetrics : RiskMetrics :=
  { zeroMetrics with max_drawdown := 0.06 }

/-- Metrics with `risk_score = 0.71` and all else zero: below every
Halted threshold and below 80% of each, yet above the 0.7
recommendation threshold. -/
def warnMetrics : RiskMetrics :=
  { zeroMetrics with risk_score := 0.71 }

/-- A detector whose loop is live and has run no cycle yet. -/
def startedDetector : DetectorState where
  isRunning := true
  loopActive := true
  halted := false
  positionsClosed := false
  cyclesRun := 0

/-- A detector whose session has halted after three completed cycles. -/
def haltedDetector : DetectorState where
  isRunning := false
  loopActive := false
  halted := true
  positionsClosed := true
  cyclesRun := 3

/-- The spec's fusion scenario for (BTCUSDT, 1h): support/resistance
buy 0.6, ICT buy 0.25, Fibonacci sell 0.15, in dict insertion order. -/
def scenarioResults : AnalysisResults :=
  [(StrategyName.support_resistance, some { confidence := 0.6, action := Action.buy }),
   (StrategyName.ict_techniques, some { confidence := 0.25, action := Action.buy }),
   (StrategyName.fibonacci, some { confidence := 0.15, action := Action.sell })]

/-! ## Theorems -/

/-- Claim C1: for every risk profile and every opportunity with
confidence in [0,1], volatility ≥ 0, and any market-conditions map, the
leverage computed by `RiskManager._calculate_dynamic_leverage` — and
hence the `PositionSizing.leverage` returned by
`calculate_position_size` — is at most `profile.max_leverage`, in each of
the three modes (fixed for Conservative, dynamic for Aggressive,
adaptive for Turbo). -/
theorem dynamic_leverage_le_max_leverage (profile : RiskProfile)
    (opportunity : QuickOpportunity) (volatility : ℚ)
    (market_conditions : MarketConditions) (current_balance : ℚ)
    (hc0 : 0 ≤ opportunity.confidence) (hc1 : opportunity.confidence ≤ 1)
    (hv : 0 ≤ volatility) :
    calculateDynamicLeverage opportunity volatility market_conditions profile ≤
      profile.max_leverage ∧
    ∀ ps : PositionSizing,
      calculatePositionSizeE opportunity current_balance volatility
        market_conditions profile = Except.ok ps →
      ps.leverage ≤ profile.max_leverage := by
  have hlev : calculateDynamicLeverage opportunity volatility market_conditions
      profile ≤ profile.max_leverage := by
    unfold calculateDynamicLeverage
    cases h : leverageModes profile.risk_level with
    | fixed => exact min_le_left _ _
    | dynamic => exact min_le_right _ _
    | adaptive => exact min_le_right _ _
  refine ⟨hlev, ?_⟩
  intro ps hps
  unfold calculatePositionSizeE at hps
  cases hb : calculateBasePositionSizeE opportunity current_balance profile with
  | error e => rw [hb] at hps; exact absurd hps (by simp)
  | ok base_size =>
      rw [hb] at hps
      by_cases hz : calculateDynamicLeverage opportunity volatility
          market_conditions profile = 0
      · simp only [hz, if_pos rfl] at hps
        exact absurd hps (by simp)
      · simp only [if_neg hz] at hps
        have hl := congrArg PositionSizing.leverage (Except.ok.inj hps)
        simp only at hl
        rw [← hl]
        exact hlev

/-- Witness for C1 at a concrete input: the Kelly scenario opportunity
under the Conservative profile with volatility 0.02 and balance 10000. -/
theorem dynamic_leverage_le_max_leverage_witness :
    calculateDynamicLeverage kellyOpportunity 0.02 emptyMarket
      conservativeProfile ≤ conservativeProfile.max_leverage ∧
    ∀ ps : PositionSizing,
      calculatePositionSizeE kellyOpportunity 10000 0.02 emptyMarket
        conservativeProfile = Except.ok ps →
      ps.leverage ≤ conservativeProfile.max_leverage :=
  dynamic_leverage_le_max_leverage conservativeProfile kellyOpportunity 0.02
    emptyMarket 10000 (by norm_num [kellyOpportunity])
    (by norm_num [kellyOpportunity]) (by norm_num)

/-- Claim C2: for every opportunity, balance, volatility and market
conditions, the `PositionSizing` returned by
`RiskManager.calculate_position_size` satisfies
`adjusted_size ≤ min(profile.max_position_size, balance × profile.max_leverage)`;
equivalently `adjusted_size` equals the minimum of
`base_size × leverage`, `profile.max_position_size` and
`balance × profile.max_leverage`. -/
theorem adjusted_size_eq_min_of_caps (opportunity : QuickOpportunity)
    (current_balance volatility : ℚ) (market_conditions : MarketConditions)
    (profile : RiskProfile) (ps : PositionSizing)
    (hps : calculatePositionSizeE opportunity current_balance volatility
      market_conditions profile = Except.ok ps) :
    ps.adjusted_size = min (ps.base_size * ps.leverage)
      (min profile.max_position_size (current_balance * profile.max_leverage)) ∧
    ps.adjusted_size ≤
      min profile.max_position_size (current_balance * profile.max_leverage) := by
  unfold calculatePositionSizeE at hps
  cases hb : calculateBasePositionSizeE opportunity current_balance profile with
  | error e => rw [hb] at hps; exact absurd hps (by simp)
  | ok base_size =>
      rw [hb] at hps
      by_cases hz : calculateDynamicLeverage opportunity volatility
          market_conditions profile = 0
      · simp only [hz, if_pos rfl] at hps
        exact absurd hps (by simp)
      · simp only [if_neg hz] at hps
        obtain rfl := (Except.ok.inj hps).symm
        simp only
        constructor
        · rw [min_assoc]
        · exact le_min (le_trans (min_le_left _ _) (min_le_right _ _))
            (min_le_right _ _)

/-- Witness for C2: the Kelly scenario opportunity under the Conservative
profile at balance 10000 yields the sizing record with
`base_size = 2500`, `leverage = 2`, `adjusted_size = 5000`. -/
theorem adjusted_size_eq_min_of_caps_witness :
    kellySizing.adjusted_size = min (kellySizing.base_size * kellySizing.leverage)
      (min conservativeProfile.max_position_size
        (10000 * conservativeProfile.max_leverage)) ∧
    kellySizing.adjusted_size ≤
      min conservativeProfile.max_position_size
        (10000 * conservativeProfile.max_leverage) :=
  adjusted_size_eq_min_of_caps kellyOpportunity 10000 0.02 emptyMarket
    conservativeProfile kellySizing
    (by norm_num [calculatePositionSizeE, calculateBasePositionSizeE,
      calculateDynamicLeverage, leverageModes, conservativeProfile,
      kellyOpportunity, kellySizing, emptyMarket])

/-- Claim C7: under the `kelly_criterion` sizing method the base position
size equals `balance × f` with `f = (p·b − (1−p))/b` clamped to
[0, 0.25], where `p` is the opportunity's confidence and `b` its
risk/reward ratio; in the spec scenario with confidence 0.9 and
risk/reward 2, `f` computes to 0.85 and is clamped to 0.25, giving base
size 2500 on balance 10000 with the Conservative profile. -/
theorem kelly_base_position_size (profile : RiskProfile)
    (opportunity : QuickOpportunity) (current_balance : ℚ)
    (hm : profile.position_sizing_method = "kelly_criterion")
    (hrr : opportunity.risk_reward_ratio ≠ 0) :
    calculateBasePositionSizeE opportunity current_balance profile =
      Except.ok (current_balance * max 0 (min
        ((opportunity.confidence * opportunity.risk_reward_ratio -
          (1 - opportunity.confidence)) / opportunity.risk_reward_ratio)
        0.25)) ∧
    ((0.9 : ℚ) * 2 - (1 - 0.9)) / 2 = 0.85 ∧
    max (0 : ℚ) (min (0.85 : ℚ) 0.25) = 0.25 ∧
    calculateBasePositionSizeE kellyOpportunity 10000 conservativeProfile =
      Except.ok 2500 := by
  refine ⟨?_, by norm_num, by norm_num, ?_⟩
  · simp [calculateBasePositionSizeE, hm, hrr]
  · simp [calculateBasePositionSizeE, conservativeProfile, kellyOpportunity]
    norm_num

/-- Witness for C7 at the scenario input: Conservative profile (whose
sizing method is `kelly_criterion`), the scenario opportunity, balance
10000. -/
theorem kelly_base_position_size_witness :
    calculateBasePositionSizeE kellyOpportunity 10000 conservativeProfile =
      Except.ok (10000 * max 0 (min
        ((kellyOpportunity.confidence * kellyOpportunity.risk_reward_ratio -
          (1 - kellyOpportunity.confidence)) / kellyOpportunity.risk_reward_ratio)
        0.25)) ∧
    ((0.9 : ℚ) * 2 - (1 - 0.9)) / 2 = 0.85 ∧
    max (0 : ℚ) (min (0.85 : ℚ) 0.25) = 0.25 ∧
    calculateBasePositionSizeE kellyOpportunity 10000 conservativeProfile =
      Except.ok 2500 :=
  kelly_base_position_size conservativeProfile kellyOpportunity 10000 rfl
    (by norm_num [kellyOpportunity])

/-- Claim C3: the safety check returns Halted (`True` with a reason)
exactly when `max_drawdown > profile.emergency_stop_loss`, or
`risk_score > 0.9`, or `margin_utilization > 0.95`; on Halted the
detection loop closes all positions and stops scheduling further cycles;
in particular, with the Conservative profile
(`emergency_stop_loss = 0.03`) and drawdown 0.06, `should_emergency_stop`
returns Halted and the detection loop stops. -/
theorem emergency_stop_iff_thresholds :
    (∀ (profile : RiskProfile) (m : RiskMetrics),
      (shouldEmergencyStop profile m).1 = true ↔
        (m.max_drawdown > profile.emergency_stop_loss ∨ m.risk_score > 0.9 ∨
          m.margin_utilization > 0.95)) ∧
    (∀ (profile : RiskProfile) (m : RiskMetrics) (s : DetectorState),
      s.loopActive = true → s.isRunning = true →
      (shouldEmergencyStop profile m).1 = true →
      detectorLoopIteration profile m s =
        { s with isRunning := false, loopActive := false, halted := true,
                 positionsClosed := true }) ∧
    ((shouldEmergencyStop conservativeProfile drawdownMetrics).1 = true ∧
      detectorLoopIteration conservativeProfile drawdownMetrics
          startedDetector =
        { startedDetector with isRunning := false, loopActive := false,
                               halted := true, positionsClosed := true }) := by
  refine ⟨?_, ?_, ?_⟩
  · intro profile m
    unfold shouldEmergencyStop
    split_ifs with h1 h2 h3 <;> simp_all
  · intro profile m s hl hr hstop
    unfold detectorLoopIteration
    rw [if_neg (by simp [hl]), if_neg (by simp [hr]), if_pos hstop]
  · constructor
    · norm_num [shouldEmergencyStop, conservativeProfile, drawdownMetrics]
    · norm_num [detectorLoopIteration, shouldEmergencyStop,
        conservativeProfile, drawdownMetrics, startedDetector]

/-- Claim C4: once the safety state has become Halted within a session —
the detection-loop task broke out of its `while` after the emergency
stop — every subsequent sequence of risk-metric updates (improvement
included) leaves the detector unchanged: scanning stays suspended, no
further cycle runs and the Halted state persists; only the explicit
`start_detection` restart spawns a new loop. -/
theorem halted_is_terminal (profile : RiskProfile)
    (updates : List RiskMetrics) (s : DetectorState)
    (hhalt : s.halted = true) (hloop : s.loopActive = false) :
    runDetectionLoop profile updates s = s ∧
    (runDetectionLoop profile updates s).halted = true ∧
    (runDetectionLoop profile updates s).loopActive = false ∧
    (runDetectionLoop profile updates s).cyclesRun = s.cyclesRun := by
  have hrun : runDetectionLoop profile updates s = s := by
    induction updates with
    | nil => rfl
    | cons m rest ih =>
        unfold runDetectionLoop at ih ⊢
        simp only [List.foldl_cons]
        rw [show detectorLoopIteration profile m s = s from by
          unfold detectorLoopIteration; rw [if_pos hloop]]
        exact ih
  exact ⟨hrun, by rw [hrun]; exact hhalt, by rw [hrun]; exact hloop, by rw [hrun]⟩

/-- Witness for C4: a halted session state stays halted and runs no
cycle across a sequence of two improving metric updates. -/
theorem halted_is_terminal_witness :
    runDetectionLoop conservativeProfile [zeroMetrics, zeroMetrics]
      haltedDetector = haltedDetector ∧
    (runDetectionLoop conservativeProfile [zeroMetrics, zeroMetrics]
      haltedDetector).halted = true ∧
    (runDetectionLoop conservativeProfile [zeroMetrics, zeroMetrics]
      haltedDetector).loopActive = false ∧
    (runDetectionLoop conservativeProfile [zeroMetrics, zeroMetrics]
      haltedDetector).cyclesRun = haltedDetector.cyclesRun :=
  halted_is_terminal conservativeProfile [zeroMetrics, zeroMetrics]
    haltedDetector rfl rfl

/-- Claim C5: signal fusion accumulates `confidence × strategy weight`
per result into one of three buckets keyed by its action; the action
whose bucket has strictly greatest accumulated weight becomes the fused
action with that accumulated weight as the fused confidence, and ties
resolve to hold; in particular, for results
{sr: buy 0.6, ict: buy 0.25, fib: sell 0.15} with weights
{sr: 0.20, ict: 0.25, fib: 0.15}, the fused signal is buy with
confidence 0.1825. -/
theorem fused_action_is_strict_argmax :
    (∀ signals : List (Action × ℚ),
      actionWeight Action.buy signals > actionWeight Action.sell signals →
      actionWeight Action.buy signals > actionWeight Action.hold signals →
      consolidateCore signals = (Action.buy, actionWeight Action.buy signals)) ∧
    (∀ signals : List (Action × ℚ),
      actionWeight Action.sell signals > actionWeight Action.buy signals →
      actionWeight Action.sell signals > actionWeight Action.hold signals →
      consolidateCore signals = (Action.sell, actionWeight Action.sell signals)) ∧
    (∀ signals : List (Action × ℚ),
      ¬(actionWeight Action.buy signals > actionWeight Action.sell signals ∧
        actionWeight Action.buy signals > actionWeight Action.hold signals) →
      ¬(actionWeight Action.sell signals > actionWeight Action.buy signals ∧
        actionWeight Action.sell signals > actionWeight Action.hold signals) →
      consolidateCore signals = (Action.hold, actionWeight Action.hold signals)) ∧
    collectSignals scenarioResults =
      [(Action.buy, 0.12), (Action.buy, 0.0625), (Action.sell, 0.0225)] ∧
    consolidateCore (collectSignals scenarioResults) = (Action.buy, 0.1825) ∧
    (consolidateSignals scenarioResults "BTCUSDT" 50000 autopilotDefaults
      0).action = Action.buy ∧
    (consolidateSignals scenarioResults "BTCUSDT" 50000 autopilotDefaults
      0).confidence = 0.1825 := by
  have hcollect : collectSignals scenarioResults =
      [(Action.buy, 0.12), (Action.buy, 0.0625), (Action.sell, 0.0225)] := by
    simp only [collectSignals, scenarioResults, List.filterMap_cons,
      List.filterMap_nil, strategyWeight]
    norm_num
  have hcore : consolidateCore
      [(Action.buy, 0.12), (Action.buy, 0.0625), (Action.sell, 0.0225)] =
      (Action.buy, 0.1825) := by
    simp [consolidateCore, actionWeight]
    norm_num
  refine ⟨?_, ?_, ?_, hcollect, ?_, ?_, ?_⟩
  · intro signals h1 h2
    unfold consolidateCore
    rw [if_pos ⟨h1, h2⟩]
  · intro signals h1 h2
    unfold consolidateCore
    rw [if_neg (fun hb => absurd hb.1 (lt_asymm h1)), if_pos ⟨h1, h2⟩]
  · intro signals h1 h2
    unfold consolidateCore
    rw [if_neg h1, if_neg h2]
  · rw [hcollect]; exact hcore
  · simp [consolidateSignals, hcollect, hcore]
  · simp [consolidateSignals, hcollect, hcore]

/-- Counterexample to claim C6 as stated.  Under the Conservative profile
take the metrics with `risk_score = 0.71` and all else zero: the Halted
conditions do not hold, and no monitored metric exceeds 80% of its Halted
threshold (drawdown `0 ≤ 0.8×0.03`, risk score `0.71 ≤ 0.8×0.9 = 0.72`,
margin `0 ≤ 0.8×0.95`), so the claim requires the monitor to report
Normal — yet `get_risk_recommendations` surfaces warnings (its own
thresholds fire: risk score `0.71 > 0.7`, win rate `0 < 0.4`,
diversification `0 < 0.3`). -/
theorem warning_not_eighty_percent_rule_cex :
    (shouldEmergencyStop conservativeProfile warnMetrics).1 = false ∧
    ¬(warnMetrics.max_drawdown >
        0.8 * conservativeProfile.emergency_stop_loss) ∧
    ¬(warnMetrics.risk_score > 0.8 * 0.9) ∧
    ¬(warnMetrics.margin_utilization > 0.8 * 0.95) ∧
    getRiskRecommendations conservativeProfile warnMetrics ≠ [] := by
  refine ⟨?_, ?_, ?_, ?_, ?_⟩
  · norm_num [shouldEmergencyStop, conservativeProfile, warnMetrics,
      zeroMetrics]
  · norm_num [conservativeProfile, warnMetrics, zeroMetrics]
  · norm_num [warnMetrics, zeroMetrics]
  · norm_num [warnMetrics, zeroMetrics]
  · norm_num [getRiskRecommendations, conservativeProfile, warnMetrics,
      zeroMetrics]
    simp

/-- Claim C6 (amended): the safety monitor's warning surface is
`get_risk_recommendations`, a pure function with no side effect, and it
reports warnings exactly when `risk_score > 0.7`, or
`max_drawdown > 0.8 × profile.max_drawdown`, or `win_rate < 0.4`, or
`diversification_score < 0.3`, or `margin_utilization > 0.8` — its own
fixed thresholds, not 80% of the Halted thresholds (in particular the
drawdown warning is relative to `profile.max_drawdown`, not
`profile.emergency_stop_loss`, and low win rate or low diversification
warn although they have no Halted threshold at all); when none of these
hold it reports nothing (Normal). -/
theorem warning_iff_recommendation_thresholds :
    ∀ (profile : RiskProfile) (m : RiskMetrics),
      getRiskRecommendations profile m ≠ [] ↔
        (m.risk_score > 0.7 ∨ m.max_drawdown > profile.max_drawdown * 0.8 ∨
          m.win_rate < 0.4 ∨ m.diversification_score < 0.3 ∨
          m.margin_utilization > 0.8) := by
  intro profile m
  unfold getRiskRecommendations
  split_ifs <;> simp_all

/-- `_consolidate_signals` builds the whole record from its inputs except
for `timestamp`, which it takes from the wall clock: the result at
instant `now` is the result at instant 0 with `timestamp` replaced. -/
theorem consolidateSignals_clock_shift (analysis_results : AnalysisResults)
    (symbol : String) (current_price : ℚ) (config : AutopilotConfigM)
    (now : ℕ) :
    consolidateSignals analysis_results symbol current_price config now =
      { consolidateSignals analysis_results symbol current_price config 0 with
        timestamp := now } := by
  by_cases hs : collectSignals analysis_results ≠ []
  · simp only [consolidateSignals, if_pos hs]
  · simp only [consolidateSignals, if_neg hs]

/-- Counterexample to claim C8 as stated: two calls of the consolidation
function on the same strategy results and market data, made at clock
instants 0 and 1, return records that are not identical — the
`timestamp` field, set from `datetime.now()`, differs. -/
theorem fuse_identical_records_cex :
    consolidateSignals scenarioResults "BTCUSDT" 50000 autopilotDefaults 0 ≠
      consolidateSignals scenarioResults "BTCUSDT" 50000 autopilotDefaults 1 := by
  intro h
  have ht := congrArg TradingSignal.timestamp h
  rw [consolidateSignals_clock_shift scenarioResults "BTCUSDT" 50000
      autopilotDefaults 0,
    consolidateSignals_clock_shift scenarioResults "BTCUSDT" 50000
      autopilotDefaults 1] at ht
  exact Nat.zero_ne_one ht

/-- Claim C8 (amended): signal consolidation is deterministic in
everything except the wall-clock `timestamp` field — two calls on the
same strategy results and market data agree on the action, confidence,
stop/target levels, per-strategy contribution map and every other field
of the record except `timestamp`, and calls at the same instant return
identical records. -/
theorem fuse_deterministic_except_timestamp :
    ∀ (analysis_results : AnalysisResults) (symbol : String)
      (current_price : ℚ) (config : AutopilotConfigM) (t1 t2 : ℕ),
      (consolidateSignals analysis_results symbol current_price config t1).action =
        (consolidateSignals analysis_results symbol current_price config t2).action ∧
      (consolidateSignals analysis_results symbol current_price config t1).confidence =
        (consolidateSignals analysis_results symbol current_price config t2).confidence ∧
      (consolidateSignals analysis_results symbol current_price config t1).symbol =
        (consolidateSignals analysis_results symbol current_price config t2).symbol ∧
      (consolidateSignals analysis_results symbol current_price config t1).price =
        (consolidateSignals analysis_results symbol current_price config t2).price ∧
      (consolidateSignals analysis_results symbol current_price config t1).stop_loss =
        (consolidateSignals analysis_results symbol current_price config t2).stop_loss ∧
      (consolidateSignals analysis_results symbol current_price config t1).take_profit =
        (consolidateSignals analysis_results symbol current_price config t2).take_profit ∧
      (consolidateSignals analysis_results symbol current_price config t1).position_size =
        (consolidateSignals analysis_results symbol current_price config t2).position_size ∧
      (consolidateSignals analysis_results symbol current_price config t1).reasoning =
        (consolidateSignals analysis_results symbol current_price config t2).reasoning ∧
      (consolidateSignals analysis_results symbol current_price config t1).strategy_contributions =
        (consolidateSignals analysis_results symbol current_price config t2).strategy_contributions ∧
      (consolidateSignals analysis_results symbol current_price config t1).risk_score =
        (consolidateSignals analysis_results symbol current_price config t2).risk_score ∧
      (consolidateSignals analysis_results symbol current_price config t1).ai_analysis =
        (consolidateSignals analysis_results symbol current_price config t2).ai_analysis ∧
      (consolidateSignals analysis_results symbol current_price config t1).timestamp = t1 ∧
      (t1 = t2 →
        consolidateSignals analysis_results symbol current_price config t1 =
          consolidateSignals analysis_results symbol current_price config t2) := by
  intro analysis_results symbol current_price config t1 t2
  rw [consolidateSignals_clock_shift analysis_results symbol current_price
      config t1,
    consolidateSignals_clock_shift analysis_results symbol current_price
      config t2]
  refine ⟨rfl, rfl, rfl, rfl, rfl, rfl, rfl, rfl, rfl, rfl, rfl, rfl, ?_⟩
  rintro rfl
  rfl

/-- Collecting a batch of all-successful task results appends their
opportunity lists in order. -/
theorem foldl_gatherStep_ok_map (ls : List (List QuickOpportunity))
    (acc : List QuickOpportunity) :
    (ls.map Except.ok).foldl gatherStep acc = acc ++ ls.flatten := by
  induction ls generalizing acc with
  | nil => simp
  | cons l rest ih =>
      simp [gatherStep, ih, List.append_assoc]

/-- Claim C9: fault isolation in the scanner — for every batch of scan
work items in which one item raises (an `Exception` value under
`asyncio.gather(..., return_exceptions=True)`), the collected output is
the same as if the failing item were absent, `scan_all_opportunities`
returns normally with the other items' results, and when every other
item succeeds the collected output is exactly the concatenation of the
other N−1 items' opportunity lists. -/
theorem scan_fault_isolation :
    ∀ (config : ScanConfigM) (e : String)
      (xs ys : List (Except String (List QuickOpportunity))),
      gatherBatchResults (xs ++ Except.error e :: ys) =
        gatherBatchResults (xs ++ ys) ∧
      scanAllFromResults config (xs ++ Except.error e :: ys) =
        scanAllFromResults config (xs ++ ys) ∧
      ∀ ls ms : List (List QuickOpportunity),
        gatherBatchResults
          (ls.map Except.ok ++ Except.error e :: ms.map Except.ok) =
          (ls ++ ms).flatten := by
  intro config e xs ys
  have hg : ∀ as bs : List (Except String (List QuickOpportunity)),
      gatherBatchResults (as ++ Except.error e :: bs) =
        gatherBatchResults (as ++ bs) := by
    intro as bs
    simp only [gatherBatchResults, List.foldl_append, List.foldl_cons, gatherStep]
  refine ⟨hg xs ys, ?_, ?_⟩
  · unfold scanAllFromResults
    rw [hg]
  · intro ls ms
    rw [hg, ← List.map_append]
    unfold gatherBatchResults
    have h2 := foldl_gatherStep_ok_map (ls ++ ms) []
    rw [List.nil_append] at h2
    exact h2

/-- Counterexample to claim C10 as stated: `calculate_position_size`
contains a third unguarded division the claim does not account for —
`volatility_adjustment = 1/(1 + opportunity.volatility_score)` in the
`volatility_adjusted` sizing branch.  For the Aggressive profile and an
opportunity with `risk_reward_ratio = 1 ≠ 0` and computed leverage
`2.5 ≠ 0` but `volatility_score = -1`, a division by zero is still
reached, refuting "both divisors are nonzero and the function returns a
PositionSizing without error". -/
theorem position_size_no_error_cex :
    negVolOpportunity.risk_reward_ratio ≠ 0 ∧
    calculateDynamicLeverage negVolOpportunity 0 emptyMarket
      aggressiveProfile ≠ 0 ∧
    calculatePositionSizeE negVolOpportunity 10000 0 emptyMarket
      aggressiveProfile = Except.error "ZeroDivisionError: volatility_adjustment" := by
  refine ⟨?_, ?_, ?_⟩
  · norm_num [negVolOpportunity]
  · norm_num [calculateDynamicLeverage, leverageModes, aggressiveProfile,
      negVolOpportunity, emptyMarket]
  · have hb : calculateBasePositionSizeE negVolOpportunity 10000
        aggressiveProfile =
        Except.error "ZeroDivisionError: volatility_adjustment" := by
      simp only [calculateBasePositionSizeE, aggressiveProfile,
        negVolOpportunity]
      norm_num
      intro h
      exact absurd h (by decide)
    simp only [calculatePositionSizeE, hb]

/-- Claim C10 (amended): `RiskManager.calculate_position_size` contains
three unguarded divisions — the Kelly fraction divides by
`opportunity.risk_reward_ratio`, the volatility adjustment divides by
`1 + opportunity.volatility_score`, and `margin_required` divides by the
computed leverage.  For every call in which `risk_reward_ratio ≠ 0`,
`1 + volatility_score ≠ 0` and the computed leverage is nonzero, the
function returns a `PositionSizing` without error; outside that
precondition a division by zero is reached for some input — the
Aggressive profile with confidence 0 reaches the `margin_required`
division by zero, and the Conservative (Kelly) profile with
`risk_reward_ratio = 0` reaches the Kelly division by zero. -/
theorem position_size_division_safety :
    (∀ (opportunity : QuickOpportunity) (current_balance volatility : ℚ)
       (market_conditions : MarketConditions) (profile : RiskProfile),
      opportunity.risk_reward_ratio ≠ 0 →
      1 + opportunity.volatility_score ≠ 0 →
      calculateDynamicLeverage opportunity volatility market_conditions
        profile ≠ 0 →
      ∃ ps : PositionSizing,
        calculatePositionSizeE opportunity current_balance volatility
          market_conditions profile = Except.ok ps) ∧
    calculatePositionSizeE zeroConfOpportunity 10000 0 emptyMarket
      aggressiveProfile = Except.error "ZeroDivisionError: margin_required" ∧
    calculatePositionSizeE zeroRRopportunity 10000 0 emptyMarket
      conservativeProfile = Except.error "ZeroDivisionError: kelly_fraction" := by
  refine ⟨?_, ?_, ?_⟩
  · intro opportunity current_balance volatility market_conditions profile
      h1 h2 h3
    unfold calculatePositionSizeE
    cases hb : calculateBasePositionSizeE opportunity current_balance profile with
    | error e =>
        exfalso
        simp only [calculateBasePositionSizeE] at hb
        by_cases hk : profile.position_sizing_method = "kelly_criterion"
        · rw [if_pos hk, if_neg h1] at hb
          exact absurd hb (by simp)
        · rw [if_neg hk] at hb
          by_cases hv : profile.position_sizing_method = "volatility_adjusted"
          · rw [if_pos hv, if_neg h2] at hb
            exact absurd hb (by simp)
          · rw [if_neg hv] at hb
            by_cases hm : profile.position_sizing_method = "momentum_based"
            · rw [if_pos hm] at hb
              exact absurd hb (by simp)
            · rw [if_neg hm] at hb
              exact absurd hb (by simp)
    | ok base_size =>
        simp only [hb]
        rw [if_neg h3]
        exact ⟨_, rfl⟩
  · have hb : calculateBasePositionSizeE zeroConfOpportunity 10000
        aggressiveProfile = Except.ok 2000 := by
      simp only [calculateBasePositionSizeE, aggressiveProfile,
        zeroConfOpportunity]
      norm_num
      decide
    have hlev : calculateDynamicLeverage zeroConfOpportunity 0 emptyMarket
        aggressiveProfile = 0 := by
      norm_num [calculateDynamicLeverage, leverageModes, aggressiveProfile,
        zeroConfOpportunity, emptyMarket]
    simp only [calculatePositionSizeE, hb, hlev]
    simp
  · have hb : calculateBasePositionSizeE zeroRRopportunity 10000
        conservativeProfile =
        Except.error "ZeroDivisionError: kelly_fraction" := by
      simp only [calculateBasePositionSizeE, conservativeProfile,
        zeroRRopportunity]
      simp
    simp only [calculatePositionSizeE, hb]

end GBSB
